import Mathlib

/-!
Shallow embedding of the order service core (models and route handlers) of the
orders repository: the `Order`/`Item` domain model with its serialization and
validation rules (`src/service/models/order.py`, `src/service/models/items.py`),
the status state machine and the action/CRUD route handlers
(`src/service/routes.py`), and the filter/paginate query logic.

Python runtime values that can appear in a decoded JSON mapping are modelled by
`PyVal`; machine floats are modelled by `Rat` (only coercion success/failure and
sign matter to the properties below, never rounding); `datetime` values are
modelled by `Nat` timestamps, with ISO-8601 interchange strings modelled by the
dedicated `PyVal.isoStr` constructor.
-/

namespace OrdersSvc

/-- A decoded JSON / Python runtime value, as far as the service inspects one.
`isoStr t` stands for the ISO-8601 string rendering of the timestamp `t`
(a string, but one that `datetime.fromisoformat` accepts and that is not a
numeric literal). -/
inductive PyVal where
  | null : PyVal
  | bool (b : Bool) : PyVal
  | int (n : Int) : PyVal
  | num (q : Rat) : PyVal
  | str (s : String) : PyVal
  | isoStr (t : Nat) : PyVal
deriving DecidableEq, Repr

/-- The exception a Python numeric coercion can raise. -/
inductive PyErr where
  | typeError : PyErr
  | valueError : PyErr
deriving DecidableEq, Repr

/-- Digits-and-dot body of a decimal literal, as accepted by `float()`. -/
def parseRatBody (body : String) : Option Rat :=
  match body.split (fun c => c = '.') with
  | [w] =>
    if w ≠ "" ∧ w.all Char.isDigit then (w.toNat?).map (fun n => (n : Rat)) else none
  | [w, f] =>
    if (w.all Char.isDigit ∧ f.all Char.isDigit) ∧ (w ≠ "" ∨ f ≠ "") then
      some (((w.toNat?).getD 0 : Nat) + ((f.toNat?).getD 0 : Nat) / ((10 : Rat) ^ f.length))
    else none
  | _ => none

/-- Decimal strings accepted by Python `float()` (sign, digits, optional
fraction; the exotic formats `inf`/`nan`/exponents are out of scope). -/
def parseRatStr (s : String) : Option Rat :=
  if s.startsWith "-" then (parseRatBody (s.drop 1)).map (fun q => -q)
  else if s.startsWith "+" then parseRatBody (s.drop 1)
  else parseRatBody s

/-- Python `str.upper()` on the characters of a string. -/
def strUpper (s : String) : String := String.mk (s.data.map Char.toUpper)

/-- Python `float(v)`: numbers and bools coerce, numeric strings parse
(`ValueError` otherwise), everything else raises `TypeError`. -/
def pyFloat (v : PyVal) : Except PyErr Rat :=
  match v with
  | .num q => .ok q
  | .int n => .ok (n : Rat)
  | .bool b => .ok (if b then 1 else 0)
  | .str s =>
    match parseRatStr s with
    | some q => .ok q
    | none => .error .valueError
  | .isoStr _ => .error .valueError
  | .null => .error .typeError

/-- Truncation toward zero, as Python `int(float)` does. -/
def ratTrunc (q : Rat) : Int := Int.tdiv q.num (q.den : Int)

/-- Python `int(v)`: ints and bools coerce, floats truncate, integer-literal
strings parse (`ValueError` otherwise), everything else raises `TypeError`. -/
def pyInt (v : PyVal) : Except PyErr Int :=
  match v with
  | .int n => .ok n
  | .num q => .ok (ratTrunc q)
  | .bool b => .ok (if b then 1 else 0)
  | .str s =>
    match s.toInt? with
    | some n => .ok n
    | none => .error .valueError
  | .isoStr _ => .error .valueError
  | .null => .error .typeError

/-- `OrderStatus` enum of `src/service/models/order.py`, in declaration order. -/
inductive OrderStatus where
  | PENDING : OrderStatus
  | CREATED : OrderStatus
  | IN_PROGRESS : OrderStatus
  | SHIPPED : OrderStatus
  | COMPLETED : OrderStatus
  | CANCELLED : OrderStatus
deriving DecidableEq, Repr

/-- `OrderStatus.value` (each member's value equals its name). -/
def OrderStatus.value : OrderStatus → String
  | .PENDING => "PENDING"
  | .CREATED => "CREATED"
  | .IN_PROGRESS => "IN_PROGRESS"
  | .SHIPPED => "SHIPPED"
  | .COMPLETED => "COMPLETED"
  | .CANCELLED => "CANCELLED"

/-- `OrderStatus.list()`: the member values in declaration order. -/
def OrderStatus.listValues : List String :=
  ["PENDING", "CREATED", "IN_PROGRESS", "SHIPPED", "COMPLETED", "CANCELLED"]

/-- Lookup of a member by name/value (`OrderStatus[s]` / `OrderStatus(s)`). -/
def OrderStatus.ofValue? (s : String) : Option OrderStatus :=
  if s = "PENDING" then some .PENDING
  else if s = "CREATED" then some .CREATED
  else if s = "IN_PROGRESS" then some .IN_PROGRESS
  else if s = "SHIPPED" then some .SHIPPED
  else if s = "COMPLETED" then some .COMPLETED
  else if s = "CANCELLED" then some .CANCELLED
  else none

/-- A persisted `Item` row (`src/service/models/items.py`). `name` and
`order_id` keep the raw value the code assigns from the payload (the code
performs no type coercion on them). -/
structure Item where
  id : Option Nat
  order_id : PyVal
  name : PyVal
  price : Rat
  quantity : Int
deriving DecidableEq, Repr

/-- A persisted `Order` row with its `items` relationship
(`src/service/models/order.py`). Timestamps are `Nat`. -/
structure Order where
  id : Option Nat
  customer_name : PyVal
  status : OrderStatus
  created_at : Nat
  updated_at : Nat
  items : List Item
deriving DecidableEq, Repr

/-- The payload mapping an `Item` is deserialized from: each key either absent
or bound to a value. Unknown extra keys are ignored by the code and therefore
not modelled. -/
structure ItemData where
  id : Option PyVal := none
  name : Option PyVal := none
  price : Option PyVal := none
  quantity : Option PyVal := none
  order_id : Option PyVal := none
deriving DecidableEq, Repr

/-- The payload mapping an `Order` is deserialized from. -/
structure OrderData where
  id : Option PyVal := none
  customer_name : Option PyVal := none
  status : Option PyVal := none
  created_at : Option PyVal := none
  updated_at : Option PyVal := none
  items : Option (List ItemData) := none
deriving DecidableEq, Repr

/-- Failure of a deserialization: a raised `DataValidationError`, or a Python
exception the code does not catch (the `ValueError` of a failed `float()` /
`int()` escapes `Item.deserialize`). -/
inductive DeserErr where
  | validation (msg : String) : DeserErr
  | uncaughtValueError : DeserErr
deriving DecidableEq, Repr

/-- `Item()` : a fresh item before any field assignment (`quantity` column
defaults to 0; the other defaults are never observable on success). -/
def emptyItem : Item :=
  { id := none, order_id := .null, name := .null, price := 0, quantity := 0 }

/-- `Item.serialize` (`src/service/models/items.py`). -/
def Item.serialize (i : Item) : ItemData :=
  { id := some (match i.id with | some n => .int (n : Int) | none => .null)
    name := some i.name
    price := some (.num i.price)
    quantity := some (.int i.quantity)
    order_id := some i.order_id }

/-- `Item.deserialize` (`src/service/models/items.py`): assigns `name` raw,
coerces `price` with `float()` and `quantity` with `int()`, takes `order_id`
with `.get` (default `None`). `KeyError` becomes
`DataValidationError "Invalid Item: missing <key>"`, `TypeError` becomes
`DataValidationError "Invalid Item: incorrect data type"`; a `ValueError`
from the coercions is not caught. -/
def Item.deserialize (self : Item) (data : ItemData) : Except DeserErr Item :=
  match data.name with
  | none => .error (.validation "Invalid Item: missing name")
  | some nm =>
    match data.price with
    | none => .error (.validation "Invalid Item: missing price")
    | some pv =>
      match pyFloat pv with
      | .error .typeError => .error (.validation "Invalid Item: incorrect data type")
      | .error .valueError => .error .uncaughtValueError
      | .ok p =>
        match data.quantity with
        | none => .error (.validation "Invalid Item: missing quantity")
        | some qv =>
          match pyInt qv with
          | .error .typeError => .error (.validation "Invalid Item: incorrect data type")
          | .error .valueError => .error .uncaughtValueError
          | .ok q =>
            .ok { self with
                  name := nm, price := p, quantity := q,
                  order_id := data.order_id.getD .null }

/-- `Order()` : a fresh order before any field assignment (`status` column
defaults to `PENDING`). -/
def emptyOrder : Order :=
  { id := none, customer_name := .null, status := .PENDING,
    created_at := 0, updated_at := 0, items := [] }

/-- `Order.serialize` (`src/service/models/order.py`): emits the status value
string, ISO-8601 timestamps and the serialized items. -/
def Order.serialize (o : Order) : OrderData :=
  { id := some (match o.id with | some n => .int (n : Int) | none => .null)
    customer_name := some o.customer_name
    status := some (.str o.status.value)
    created_at := some (.isoStr o.created_at)
    updated_at := some (.isoStr o.updated_at)
    items := some (o.items.map Item.serialize) }

/-- `datetime.fromisoformat(v)`: parses an ISO-8601 string back to its
timestamp; a non-ISO string raises `ValueError`, a non-string `TypeError`. -/
def fromIsoformat (v : PyVal) : Except PyErr Nat :=
  match v with
  | .isoStr t => .ok t
  | .str _ => .error .valueError
  | _ => .error .typeError

/-- The `for json_item in item_list` loop of `Order.deserialize`: each payload
item is deserialized into a fresh `Item()`; a `DataValidationError` raised by
`Item.deserialize` propagates unchanged, while an escaped `ValueError` is
caught by the enclosing `except (TypeError, ValueError)` of `Order.deserialize`
and re-raised as `DataValidationError "Invalid Order: ..."`. -/
def deserializeItemList : List ItemData → Except DeserErr (List Item)
  | [] => .ok []
  | d :: rest =>
    match Item.deserialize emptyItem d with
    | .ok it =>
      match deserializeItemList rest with
      | .ok its => .ok (it :: its)
      | .error e => .error e
    | .error (.validation m) => .error (.validation m)
    | .error .uncaughtValueError =>
      .error (.validation "Invalid Order: could not convert string to float")

/-- `Order.deserialize` (`src/service/models/order.py`): assigns
`customer_name` raw (no non-empty check), converts `status` (default
`"PENDING"`, case-insensitive name lookup, `DataValidationError` on anything
else), parses `created_at` when present (else the current time `now`), and
appends the deserialized payload items to the existing `items` collection.
`id` and `updated_at` are not touched. -/
def Order.deserialize (self : Order) (now : Nat) (data : OrderData) :
    Except DeserErr Order :=
  match data.customer_name with
  | none => .error (.validation "Invalid Order: missing customer_name")
  | some cn =>
    let status_str := data.status.getD (.str "PENDING")
    match status_str with
    | .str s =>
      match OrderStatus.ofValue? (strUpper s) with
      | some st =>
        let createdParsed : Except DeserErr Nat :=
          match data.created_at with
          | some cv =>
            match fromIsoformat cv with
            | .ok t => .ok t
            | .error _ => .error (.validation "Invalid Order: invalid isoformat string")
          | none => .ok now
        match createdParsed with
        | .error e => .error e
        | .ok t =>
          match deserializeItemList (data.items.getD []) with
          | .error e => .error e
          | .ok newItems =>
            .ok { self with
                  customer_name := cn, status := st, created_at := t,
                  items := self.items ++ newItems }
      | none => .error (.validation ("Invalid status: " ++ s))
    | other => .error (.validation ("Invalid status: " ++ reprStr other))

/-! ### Route layer (`src/service/routes.py`)

The persisted state is the order table: a list of `Order` rows, each carrying
its `items` relationship. `Order.find` / `Item.find` are primary-key lookups,
`update` commits the mutated row (refreshing `updated_at` via the column's
`onupdate` hook, modelled by the `now` argument). -/

/-- `Order.find(order_id)`: primary-key lookup. -/
def findOrder (db : List Order) (oid : Nat) : Option Order :=
  db.find? (fun o => decide (o.id = some oid))

/-- Committing a mutated order row: every row with this primary key is
replaced (there is at most one in a well-formed table). -/
def updateOrder (db : List Order) (oid : Nat) (o' : Order) : List Order :=
  db.map (fun o => if o.id = some oid then o' else o)

/-- `Item.find(item_id)`: primary-key lookup in the item table (the union of
all orders' item collections). -/
def findItem (db : List Order) (iid : Nat) : Option Item :=
  (db.flatMap (fun o => o.items)).find? (fun i => decide (i.id = some iid))

/-- `item.delete()`: the row with this primary key is removed from the item
table, hence from whichever order's collection held it. -/
def removeItem (db : List Order) (iid : Nat) : List Order :=
  db.map (fun o => { o with items := o.items.filter (fun i => !decide (i.id = some iid)) })

/-- Response of the advance (`PUT /orders/<id>/update`) action. -/
inductive Resp where
  | notFound : Resp
  | badRequest (msg : String) : Resp
  | okAdvance (order_id : Option Nat) (st : OrderStatus) : Resp
  | internalError : Resp
deriving DecidableEq, Repr

/-- The status-list successor computed by `OrderUpdateResource.put`:
`status_list.index(current) + 1` into `OrderStatus.list()`; `none` models the
uncaught `IndexError` when the index runs off the list. -/
def nextStatusCode (s : OrderStatus) : Option OrderStatus :=
  let l := OrderStatus.listValues
  match l.get? (l.indexOf s.value + 1) with
  | some v => OrderStatus.ofValue? v
  | none => none

/-- `OrderUpdateResource.put` (`src/service/routes.py`, the advance action):
404 when the order is absent; 400 when it has no items (checked first) or its
status is `COMPLETED` or `CANCELLED`; otherwise the status becomes the
status-list successor, `updated_at` is refreshed to `now` and the row is
persisted. -/
def advanceRoute (now : Nat) (db : List Order) (oid : Nat) : List Order × Resp :=
  match findOrder db oid with
  | none => (db, .notFound)
  | some o =>
    if o.items.isEmpty then
      (db, .badRequest ("Cannot change status of order_id:" ++ toString oid ++ " with no items"))
    else if o.status = .COMPLETED ∨ o.status = .CANCELLED then
      (db, .badRequest "Cannot change the status of an order that is COMPLETED or CANCELLED")
    else
      match nextStatusCode o.status with
      | some st =>
        let o' := { o with status := st, updated_at := now }
        (updateOrder db oid o', .okAdvance o.id st)
      | none => (db, .internalError)

/-- Iterated advance: one `advanceRoute` call per timestamp in `times`,
threading the store, collecting the responses in call order. -/
def advanceSteps (oid : Nat) (db : List Order) : List Nat → List Order × List Resp
  | [] => (db, [])
  | t :: ts =>
    let r := advanceRoute t db oid
    let rest := advanceSteps oid r.1 ts
    (rest.1, r.2 :: rest.2)

/-- Response of the delete-item route. -/
inductive DelResp where
  | notFound : DelResp
  | noContent : DelResp
deriving DecidableEq, Repr

/-- `ItemResource.delete` (`src/service/routes.py`): 404 when the order named
in the URL is absent; otherwise the item with `item_id` is deleted if it
exists (no check that it belongs to the named order) and 204 is returned. -/
def deleteItemRoute (db : List Order) (oid iid : Nat) : List Order × DelResp :=
  match findOrder db oid with
  | none => (db, .notFound)
  | some _ =>
    match findItem db iid with
    | none => (db, .noContent)
    | some _ => (removeItem db iid, .noContent)

/-! ### Query engine (`Order.find_by_filters`) -/

/-- The entity de-duplication the legacy ORM query applies when returning full
entity rows: of rows with the same primary key only the first is kept. -/
def dedupByIdGo : List (Option Nat) → List Order → List Order
  | _, [] => []
  | seen, o :: rest =>
    if o.id ∈ seen then dedupByIdGo seen rest
    else o :: dedupByIdGo (o.id :: seen) rest

/-- Entity rows of a query result, de-duplicated by primary key. -/
def dedupById (l : List Order) : List Order := dedupByIdGo [] l

/-- `Order.find_by_filters` (`src/service/models/order.py`): conjunctively
applies the provided filters. Each guard is the Python truthiness test of the
argument, so an empty string (or `order_id` 0) disables its filter. An
unrecognized status yields `filter(False)`, i.e. an empty result. The
`product_name` filter is an inner join with `Item` on `Item.name`, producing
one row per matching item; the final `.all()` de-duplicates entities. -/
def find_by_filters (db : List Order) (customer_name : Option String)
    (order_status : Option String) (order_id : Option Nat)
    (product_name : Option String) : List Order :=
  let q1 :=
    match customer_name with
    | some cn => if cn ≠ "" then db.filter (fun o => decide (o.customer_name = .str cn)) else db
    | none => db
  let q2 :=
    match order_status with
    | some st0 =>
      if st0 ≠ "" then
        match OrderStatus.ofValue? (strUpper st0) with
        | some s => q1.filter (fun o => decide (o.status = s))
        | none => q1.filter (fun _ => false)
      else q1
    | none => q1
  let q3 :=
    match order_id with
    | some oid => if oid ≠ 0 then q2.filter (fun o => decide (o.id = some oid)) else q2
    | none => q2
  let q4 :=
    match product_name with
    | some pn =>
      if pn ≠ "" then
        q3.flatMap (fun o => (o.items.filter (fun i => decide (i.name = .str pn))).map (fun _ => o))
      else q3
    | none => q3
  dedupById q4

/-! ### Pagination -/

/-- Pagination metadata returned beside a page slice. -/
structure PageMeta where
  page : Nat
  page_size : Nat
  total_items : Nat
  total_pages : Nat
deriving DecidableEq, Repr

/-- Modelled from the spec: the paginated list endpoint exercised by the
repository's tests (`GET /orders` with `page`/`page_size`, returning
`orders` plus `metadata`) is not among the files under `src/` — the
flask-restx variant present in `src/service/routes.py` returns the unpaginated
list. Following spec section 4.3: the slice
`[(page-1)*page_size, page*page_size)` of the filtered ordered collection plus
metadata `page, page_size, total_items, total_pages` with
`total_pages = ceil(total_items / page_size)` (0 when `total_items` is 0);
an out-of-range page gives an empty slice, not an error. -/
def paginate (l : List Order) (page page_size : Nat) : List Order × PageMeta :=
  let total := l.length
  ((l.drop ((page - 1) * page_size)).take page_size,
   { page := page, page_size := page_size, total_items := total,
     total_pages := (total + page_size - 1) / page_size })

/-! ### Claim-side definitions and concrete fixtures -/

/-- The immediate successor in the linear status sequence
`PENDING, CREATED, IN_PROGRESS, SHIPPED, COMPLETED` named by the spec
(the compare point for the code's status-list successor). -/
def linearSuccessor : OrderStatus → Option OrderStatus
  | .PENDING => some .CREATED
  | .CREATED => some .IN_PROGRESS
  | .IN_PROGRESS => some .SHIPPED
  | .SHIPPED => some .COMPLETED
  | .COMPLETED => none
  | .CANCELLED => none

/-- Equality of two orders on every field except the two timestamps. -/
def eqExceptTimestamps (a b : Order) : Prop :=
  a.id = b.id ∧ a.customer_name = b.customer_name ∧ a.status = b.status ∧
    a.items = b.items

/-- Whether an `Except` result is a success. -/
def exceptIsOk : Except DeserErr (List Item) → Bool
  | .ok _ => true
  | .error _ => false

/-- Fixture: an item belonging to order 1. -/
def w1Item : Item :=
  { id := some 10, order_id := .int 1, name := .str "gizmo", price := 5, quantity := 2 }

/-- Fixture: a pending order with one item. -/
def w1Order : Order :=
  { id := some 1, customer_name := .str "alice", status := .PENDING,
    created_at := 0, updated_at := 0, items := [w1Item] }

/-- Fixture: a one-order store. -/
def w1Db : List Order := [w1Order]

/-- Fixture: a created order with no items. -/
def w2Order : Order :=
  { id := some 2, customer_name := .str "beth", status := .CREATED,
    created_at := 0, updated_at := 0, items := [] }

/-- Fixture: a store holding only an itemless order. -/
def w2Db : List Order := [w2Order]

/-- Fixture: a store with one order holding two items named "x" (so the
product-name join yields two rows for it). -/
def c3Db : List Order :=
  [{ id := some 1, customer_name := .str "ann", status := .PENDING,
     created_at := 0, updated_at := 0,
     items := [{ id := some 5, order_id := .int 1, name := .str "x",
                 price := 1, quantity := 1 },
               { id := some 6, order_id := .int 1, name := .str "x",
                 price := 2, quantity := 1 }] }]

/-- Fixture: an item payload with a negative price. -/
def c5Data : ItemData :=
  { name := some (.str "widget"), price := some (.num (-1)),
    quantity := some (.int 1) }

/-- Fixture: an item of the round-trip order that holds one item. -/
def c7bItem : Item :=
  { id := some 4, order_id := .int 9, name := .str "g", price := 1, quantity := 1 }

/-- Fixture: a persisted one-item order, for the round trip into itself. -/
def c7bOrder : Order :=
  { id := some 9, customer_name := .str "zoe", status := .CREATED,
    created_at := 3, updated_at := 3, items := [c7bItem] }

/-- Fixture: an order with an assigned id and no items, for the round trip. -/
def c7Order : Order :=
  { id := some 1, customer_name := .str "alice", status := .PENDING,
    created_at := 0, updated_at := 0, items := [] }

/-- Fixture: what deserializing `c7Order`'s serialization into a fresh order
actually produces (the id is not reproduced). -/
def c7Result : Order :=
  { id := none, customer_name := .str "alice", status := .PENDING,
    created_at := 0, updated_at := 0, items := [] }

/-- Fixture: an order with no items, primary key 1. -/
def c8Order1 : Order :=
  { id := some 1, customer_name := .str "ann", status := .PENDING,
    created_at := 0, updated_at := 0, items := [] }

/-- Fixture: an item that belongs to order 2, not order 1. -/
def c8Item : Item :=
  { id := some 7, order_id := .int 2, name := .str "w", price := 1, quantity := 1 }

/-- Fixture: the order that owns `c8Item`. -/
def c8Order2 : Order :=
  { id := some 2, customer_name := .str "bob", status := .PENDING,
    created_at := 0, updated_at := 0, items := [c8Item] }

/-- Fixture: a two-order store for the delete-item scenario. -/
def c8Db : List Order := [c8Order1, c8Order2]

/-- Fixture: an order that already holds one item. -/
def c10Self : Order :=
  { id := some 3, customer_name := .str "bob", status := .CREATED,
    created_at := 1, updated_at := 1,
    items := [{ id := some 20, order_id := .int 3, name := .str "old",
                price := 2, quantity := 1 }] }

/-- Fixture: an update payload carrying one new item. -/
def c10Data : OrderData :=
  { customer_name := some (.str "bob"),
    items := some [{ name := some (.str "new"), price := some (.num 3),
                     quantity := some (.int 4) }] }

/-! ### Lemmas about the advance action -/

/-- The code's status-list successor agrees with the linear sequence on every
non-terminal status, and maps `COMPLETED` to `CANCELLED` (the entry the list
places right after it). -/
theorem nextStatusCode_nonterminal (s : OrderStatus)
    (hC : s ≠ .COMPLETED) (hX : s ≠ .CANCELLED) :
    nextStatusCode s = linearSuccessor s := by
  cases s <;> first | rfl | (exact absurd rfl hC)

theorem findOrder_updateOrder (db : List Order) (oid : Nat) (o o' : Order)
    (ho' : o'.id = some oid) (h : findOrder db oid = some o) :
    findOrder (updateOrder db oid o') oid = some o' := by
  induction db with
  | nil => simp [findOrder] at h
  | cons a rest ih =>
    rw [updateOrder, List.map_cons]
    by_cases ha : a.id = some oid
    · simp [findOrder, ha, ho']
    · rw [if_neg ha]
      have h' : findOrder rest oid = some o := by
        simpa [findOrder, List.find?_cons, ha] using h
      simpa [findOrder, updateOrder, List.find?_cons, ha] using ih h'

theorem advance_notFound (now : Nat) (db : List Order) (oid : Nat)
    (h : findOrder db oid = none) :
    advanceRoute now db oid = (db, .notFound) := by
  simp [advanceRoute, h]

theorem advance_no_items (now : Nat) (db : List Order) (oid : Nat) (o : Order)
    (h : findOrder db oid = some o) (hi : o.items = []) :
    advanceRoute now db oid =
      (db, .badRequest ("Cannot change status of order_id:" ++ toString oid ++ " with no items")) := by
  simp [advanceRoute, h, List.isEmpty_iff, hi]

theorem advance_terminal (now : Nat) (db : List Order) (oid : Nat) (o : Order)
    (h : findOrder db oid = some o) (hi : o.items ≠ [])
    (hs : o.status = .COMPLETED ∨ o.status = .CANCELLED) :
    advanceRoute now db oid =
      (db, .badRequest "Cannot change the status of an order that is COMPLETED or CANCELLED") := by
  simp [advanceRoute, h, List.isEmpty_iff, hi, hs]

theorem advance_ok (now : Nat) (db : List Order) (oid : Nat) (o : Order)
    (st : OrderStatus) (h : findOrder db oid = some o) (hi : o.items ≠ [])
    (hs : ¬(o.status = .COMPLETED ∨ o.status = .CANCELLED))
    (hn : nextStatusCode o.status = some st) :
    advanceRoute now db oid =
      (updateOrder db oid { o with status := st, updated_at := now },
       .okAdvance o.id st) := by
  simp [advanceRoute, h, List.isEmpty_iff, hi, hs, hn]

theorem findOrder_id (db : List Order) (oid : Nat) (o : Order)
    (h : findOrder db oid = some o) : o.id = some oid := by
  have := List.find?_some h
  simpa using this

/-- C1: for every persisted Order with at least one item and a non-terminal
status, the advance action sets the status to the immediate successor in the
linear sequence PENDING, CREATED, IN_PROGRESS, SHIPPED, COMPLETED (refreshing
`updated_at` and persisting the row); an Order with an item starting at
PENDING, advanced 4 times, passes through CREATED, IN_PROGRESS, SHIPPED and
ends at COMPLETED, and a 5th advance fails. -/
theorem claim_C1_advance_linear_successor
    (now : Nat) (db : List Order) (oid : Nat) (o : Order)
    (h : findOrder db oid = some o) (hi : o.items ≠ [])
    (hC : o.status ≠ .COMPLETED) (hX : o.status ≠ .CANCELLED) :
    (∃ st, linearSuccessor o.status = some st ∧
       advanceRoute now db oid =
         (updateOrder db oid { o with status := st, updated_at := now },
          .okAdvance o.id st)) ∧
    (o.status = .PENDING → ∀ t1 t2 t3 t4 t5 : Nat,
       (advanceSteps oid db [t1, t2, t3, t4, t5]).2 =
         [.okAdvance o.id .CREATED, .okAdvance o.id .IN_PROGRESS,
          .okAdvance o.id .SHIPPED, .okAdvance o.id .COMPLETED,
          .badRequest "Cannot change the status of an order that is COMPLETED or CANCELLED"]) := by
  have hterm : ¬(o.status = .COMPLETED ∨ o.status = .CANCELLED) := by
    rintro (e | e)
    · exact hC e
    · exact hX e
  have hid : o.id = some oid := findOrder_id db oid o h
  constructor
  · obtain ⟨st, hst⟩ : ∃ st, linearSuccessor o.status = some st := by
      cases ho : o.status <;> simp [linearSuccessor] <;> simp_all
    refine ⟨st, hst, advance_ok now db oid o st h hi hterm ?_⟩
    rw [nextStatusCode_nonterminal o.status hC hX]
    exact hst
  · intro hP t1 t2 t3 t4 t5
    have e1 := advance_ok t1 db oid o .CREATED h hi hterm (by rw [hP]; decide)
    have f1 : findOrder (updateOrder db oid { o with status := .CREATED, updated_at := t1 }) oid
        = some { o with status := .CREATED, updated_at := t1 } :=
      findOrder_updateOrder db oid o _ hid h
    have e2 := advance_ok t2 (updateOrder db oid { o with status := .CREATED, updated_at := t1 })
      oid { o with status := .CREATED, updated_at := t1 } .IN_PROGRESS f1 hi (by simp) rfl
    have f2 : findOrder (updateOrder (updateOrder db oid { o with status := .CREATED, updated_at := t1 })
        oid { o with status := .IN_PROGRESS, updated_at := t2 }) oid
        = some { o with status := .IN_PROGRESS, updated_at := t2 } :=
      findOrder_updateOrder _ oid _ _ hid f1
    have e3 := advance_ok t3 _ oid { o with status := .IN_PROGRESS, updated_at := t2 }
      .SHIPPED f2 hi (by simp) rfl
    have f3 : findOrder (updateOrder (updateOrder (updateOrder db oid
        { o with status := .CREATED, updated_at := t1 }) oid
        { o with status := .IN_PROGRESS, updated_at := t2 }) oid
        { o with status := .SHIPPED, updated_at := t3 }) oid
        = some { o with status := .SHIPPED, updated_at := t3 } :=
      findOrder_updateOrder _ oid _ _ hid f2
    have e4 := advance_ok t4 _ oid { o with status := .SHIPPED, updated_at := t3 }
      .COMPLETED f3 hi (by simp) rfl
    have f4 : findOrder (updateOrder (updateOrder (updateOrder (updateOrder db oid
        { o with status := .CREATED, updated_at := t1 }) oid
        { o with status := .IN_PROGRESS, updated_at := t2 }) oid
        { o with status := .SHIPPED, updated_at := t3 }) oid
        { o with status := .COMPLETED, updated_at := t4 }) oid
        = some { o with status := .COMPLETED, updated_at := t4 } :=
      findOrder_updateOrder _ oid _ _ hid f3
    have e5 := advance_terminal t5 _ oid { o with status := .COMPLETED, updated_at := t4 }
      f4 hi (by simp)
    simp only [advanceSteps, e1, e2, e3, e4, e5]

/-- C1 witness: the four advances and the failing fifth, on a concrete
one-order store. -/
theorem claim_C1_witness :
    (advanceSteps 1 w1Db [1, 2, 3, 4, 5]).2 =
      [.okAdvance (some 1) .CREATED, .okAdvance (some 1) .IN_PROGRESS,
       .okAdvance (some 1) .SHIPPED, .okAdvance (some 1) .COMPLETED,
       .badRequest "Cannot change the status of an order that is COMPLETED or CANCELLED"] := by
  have h := claim_C1_advance_linear_successor 9 w1Db 1 w1Order
    (by decide) (by decide) (by decide) (by decide)
  exact h.2 (by decide) 1 2 3 4 5

/-- C2: for every existing Order, the advance action answers 400 iff the Order
has no items or its status is COMPLETED or CANCELLED (the no-items check runs
first, so it applies regardless of status), and on such a failure the store —
hence the Order's status — is unchanged. -/
theorem claim_C2_advance_preconditions
    (now : Nat) (db : List Order) (oid : Nat) (o : Order)
    (h : findOrder db oid = some o) :
    ((∃ m, (advanceRoute now db oid).2 = .badRequest m) ↔
       (o.items = [] ∨ o.status = .COMPLETED ∨ o.status = .CANCELLED)) ∧
    ((∃ m, (advanceRoute now db oid).2 = .badRequest m) →
       (advanceRoute now db oid).1 = db) := by
  by_cases hi : o.items = []
  · rw [advance_no_items now db oid o h hi]
    simp [hi]
  · by_cases hterm : o.status = .COMPLETED ∨ o.status = .CANCELLED
    · rw [advance_terminal now db oid o h hi hterm]
      simp [hterm]
    · have hC : o.status ≠ .COMPLETED := fun e => hterm (Or.inl e)
      have hX : o.status ≠ .CANCELLED := fun e => hterm (Or.inr e)
      obtain ⟨st, hst⟩ : ∃ st, nextStatusCode o.status = some st := by
        rw [nextStatusCode_nonterminal o.status hC hX]
        cases ho : o.status <;> simp [linearSuccessor] <;> simp_all
      rw [advance_ok now db oid o st h hi hterm hst]
      simp [hi, hterm]

/-- C2 witness: advancing a concrete itemless order fails with 400 and leaves
the store unchanged. -/
theorem claim_C2_witness :
    (advanceRoute 3 w2Db 2).2 = .badRequest "Cannot change status of order_id:2 with no items" ∧
    (advanceRoute 3 w2Db 2).1 = w2Db := by
  have h := claim_C2_advance_preconditions 3 w2Db 2 w2Order (by decide)
  exact ⟨by decide, h.2 ⟨"Cannot change status of order_id:2 with no items", by decide⟩⟩

/-- C9: although the status list places CANCELLED immediately after COMPLETED
(so the code's successor of COMPLETED is CANCELLED), the terminal-status
precondition makes that successor unreachable: every status produced by a
successful advance is one of CREATED, IN_PROGRESS, SHIPPED, COMPLETED and is
never CANCELLED. -/
theorem claim_C9_advance_never_cancelled :
    nextStatusCode .COMPLETED = some .CANCELLED ∧
    ∀ (now : Nat) (db : List Order) (oid : Nat) (db' : List Order)
      (i : Option Nat) (st : OrderStatus),
      advanceRoute now db oid = (db', .okAdvance i st) →
      st ≠ .CANCELLED ∧
      (st = .CREATED ∨ st = .IN_PROGRESS ∨ st = .SHIPPED ∨ st = .COMPLETED) := by
  refine ⟨by decide, ?_⟩
  intro now db oid db' i st h
  cases hfo : findOrder db oid with
  | none => rw [advance_notFound now db oid hfo] at h; simp at h
  | some o =>
    by_cases hi : o.items = []
    · rw [advance_no_items now db oid o hfo hi] at h
      simp [Prod.ext_iff] at h
    · by_cases hterm : o.status = OrderStatus.COMPLETED ∨ o.status = OrderStatus.CANCELLED
      · rw [advance_terminal now db oid o hfo hi hterm] at h
        simp [Prod.ext_iff] at h
      · have hC : o.status ≠ OrderStatus.COMPLETED := fun e => hterm (Or.inl e)
        have hX : o.status ≠ OrderStatus.CANCELLED := fun e => hterm (Or.inr e)
        obtain ⟨st', hst⟩ : ∃ st', nextStatusCode o.status = some st' := by
          rw [nextStatusCode_nonterminal o.status hC hX]
          cases ho : o.status <;> simp [linearSuccessor] <;> simp_all
        rw [advance_ok now db oid o st' hfo hi hterm hst] at h
        have hsnd := congrArg Prod.snd h
        simp only [Resp.okAdvance.injEq] at hsnd
        rw [nextStatusCode_nonterminal o.status hC hX] at hst
        cases ho : o.status <;> rw [ho] at hst <;> simp [linearSuccessor] at hst <;>
          subst hst <;> obtain ⟨h1, h2⟩ := hsnd <;> subst h2 <;> decide

/-- C9 witness: a concrete successful advance produces a non-CANCELLED status
among the four reachable ones. -/
theorem claim_C9_witness :
    OrderStatus.CREATED ≠ OrderStatus.CANCELLED ∧
    (OrderStatus.CREATED = .CREATED ∨ OrderStatus.CREATED = .IN_PROGRESS ∨
     OrderStatus.CREATED = .SHIPPED ∨ OrderStatus.CREATED = .COMPLETED) :=
  claim_C9_advance_never_cancelled.2 7 w1Db 1
    [{ w1Order with status := .CREATED, updated_at := 7 }] (some 1) .CREATED
    (by decide)

/-! ### Lemmas about the product-name join -/

theorem dedup_replicate_mem (k : Nat) (seen : List (Option Nat)) (o : Order)
    (rest : List Order) (h : o.id ∈ seen) :
    dedupByIdGo seen (List.replicate k o ++ rest) = dedupByIdGo seen rest := by
  induction k with
  | zero => simp
  | succ n ih => simp [List.replicate_succ, dedupByIdGo, h, ih]

theorem dedup_join (pn : String) (db : List Order) : ∀ seen : List (Option Nat),
    (db.map Order.id).Nodup → (∀ o ∈ db, o.id ∉ seen) →
    dedupByIdGo seen (db.flatMap (fun o =>
      (o.items.filter (fun i => decide (i.name = .str pn))).map (fun _ => o))) =
    db.filter (fun o => o.items.any (fun i => decide (i.name = .str pn))) := by
  induction db with
  | nil => intro seen _ _; rfl
  | cons o ds ih =>
    intro seen hnd hseen
    have hnd' : (ds.map Order.id).Nodup := by
      rw [List.map_cons, List.nodup_cons] at hnd
      exact hnd.2
    have hhead : o.id ∉ ds.map Order.id := by
      rw [List.map_cons, List.nodup_cons] at hnd
      exact hnd.1
    rw [List.flatMap_cons]
    have hrepl : (o.items.filter (fun i => decide (i.name = .str pn))).map (fun _ => o)
        = List.replicate (o.items.filter (fun i => decide (i.name = .str pn))).length o :=
      List.map_const' _ o
    by_cases hmatch : o.items.any (fun i => decide (i.name = .str pn)) = true
    · have hk : (o.items.filter (fun i => decide (i.name = .str pn))).length ≠ 0 := by
        intro hlen
        rw [List.length_eq_zero, List.filter_eq_nil_iff] at hlen
        rw [List.any_eq_true] at hmatch
        obtain ⟨x, hx, hpx⟩ := hmatch
        exact hlen x hx hpx
      obtain ⟨n, hK⟩ : ∃ n, (o.items.filter (fun i => decide (i.name = .str pn))).length
          = n + 1 := by
        cases hK : (o.items.filter (fun i => decide (i.name = .str pn))).length with
        | zero => exact absurd hK hk
        | succ n => exact ⟨n, rfl⟩
      rw [hrepl, hK, List.replicate_succ, List.cons_append]
      rw [show dedupByIdGo seen (o :: (List.replicate n o ++
            ds.flatMap (fun o => (o.items.filter (fun i => decide (i.name = .str pn))).map
              (fun _ => o)))) =
          o :: dedupByIdGo (o.id :: seen) (List.replicate n o ++
            ds.flatMap (fun o => (o.items.filter (fun i => decide (i.name = .str pn))).map
              (fun _ => o)))
        from by simp [dedupByIdGo, hseen o (List.mem_cons_self o ds)]]
      rw [dedup_replicate_mem n _ o _ (List.mem_cons_self _ _)]
      rw [ih (o.id :: seen) hnd' ?_]
      · exact (List.filter_cons_of_pos
          (p := fun (x : Order) => x.items.any fun i => decide (i.name = PyVal.str pn)) hmatch).symm
      · intro o' ho'
        intro hmem
        rcases List.mem_cons.1 hmem with he | hs
        · exact hhead (he ▸ List.mem_map_of_mem Order.id ho')
        · exact hseen o' (List.mem_cons_of_mem o ho') hs
    · have hfil : o.items.filter (fun i => decide (i.name = .str pn)) = [] := by
        rw [List.filter_eq_nil_iff]
        intro x hx hpx
        exact hmatch (List.any_eq_true.2 ⟨x, hx, hpx⟩)
      rw [hfil]
      simp only [List.map_nil, List.nil_append]
      rw [ih seen hnd' (fun o' h' => hseen o' (List.mem_cons_of_mem o h'))]
      exact (List.filter_cons_of_neg
        (p := fun (x : Order) => x.items.any fun i => decide (i.name = PyVal.str pn))
        (by simpa using hmatch)).symm

/-- C3 (amended): with a non-empty `product_name` and a well-formed store
(pairwise-distinct primary keys), `find_by_filters` returns exactly the
orders containing at least one item whose name equals the given value, each
exactly once, in store order. -/
theorem claim_C3_product_name_filter (db : List Order) (pn : String)
    (hpn : pn ≠ "") (hnd : (db.map Order.id).Nodup) :
    find_by_filters db none none none (some pn) =
      db.filter (fun o => o.items.any (fun i => decide (i.name = .str pn))) := by
  have h := dedup_join pn db [] hnd (by simp)
  simpa [find_by_filters, dedupById, hpn] using h

/-- C3 counterexample: the claim quantifies over every provided
`product_name`; providing the empty string is falsy in the guard, so the
filter is skipped and every order is returned — including one with no item
named `""` — instead of the empty match set the claim requires. -/
theorem claim_C3_counterexample :
    find_by_filters c3Db none none none (some "") = c3Db ∧
    c3Db.filter (fun o => o.items.any (fun i => decide (i.name = .str ""))) = [] :=
  ⟨rfl, rfl⟩

/-- C3 witness: on a concrete store whose single order holds two items named
"x", the filter returns that order exactly once. -/
theorem claim_C3_witness :
    find_by_filters c3Db none none none (some "x") =
      c3Db.filter (fun o => o.items.any (fun i => decide (i.name = .str "x"))) :=
  claim_C3_product_name_filter c3Db "x" (by decide) (by decide)

/-- C4: for positive `page` and `page_size` the list operation returns the
slice `[(page-1)*page_size, page*page_size)` of the collection — element `i`
of the result is element `(page-1)*page_size + i` of the collection — with
metadata `page, page_size, total_items` and `total_pages` the least number of
pages covering `total_items` (0 exactly when the collection is empty, i.e.
the ceiling of `total_items / page_size`), and an out-of-range page yields an
empty slice rather than an error. -/
theorem claim_C4_paginate (l : List Order) (page ps : Nat)
    (hp : 1 ≤ page) (hs : 1 ≤ ps) :
    ((paginate l page ps).2 =
       { page := page, page_size := ps, total_items := l.length,
         total_pages := (l.length + ps - 1) / ps }) ∧
    (l.length ≤ (paginate l page ps).2.total_pages * ps) ∧
    ((paginate l page ps).2.total_pages = 0 ↔ l.length = 0) ∧
    (1 ≤ l.length → ((paginate l page ps).2.total_pages - 1) * ps < l.length) ∧
    ((paginate l page ps).1.length = min ps (l.length - (page - 1) * ps)) ∧
    (∀ i : Nat, i < ps →
       (paginate l page ps).1.get? i = l.get? ((page - 1) * ps + i)) ∧
    (l.length ≤ (page - 1) * ps → (paginate l page ps).1 = []) := by
  have hmeta : (paginate l page ps).2 =
      { page := page, page_size := ps, total_items := l.length,
        total_pages := (l.length + ps - 1) / ps } := rfl
  have hdm := Nat.div_add_mod (l.length + ps - 1) ps
  have hmlt : (l.length + ps - 1) % ps < ps := Nat.mod_lt _ (by omega)
  refine ⟨hmeta, ?_, ?_, ?_, ?_, ?_, ?_⟩
  · rw [hmeta]
    show l.length ≤ (l.length + ps - 1) / ps * ps
    rw [mul_comm]
    generalize hq : ps * ((l.length + ps - 1) / ps) = m at hdm
    omega
  · rw [hmeta]
    show (l.length + ps - 1) / ps = 0 ↔ l.length = 0
    constructor
    · intro h0
      rw [h0] at hdm
      generalize hq : (l.length + ps - 1) % ps = r at hdm hmlt
      omega
    · intro h0
      rw [h0]
      simpa using Nat.div_eq_of_lt (by omega)
  · intro hT
    rw [hmeta]
    show ((l.length + ps - 1) / ps - 1) * ps < l.length
    rw [Nat.sub_mul, one_mul, mul_comm]
    generalize hq : ps * ((l.length + ps - 1) / ps) = m at hdm
    omega
  · show ((l.drop ((page - 1) * ps)).take ps).length = min ps (l.length - (page - 1) * ps)
    rw [List.length_take, List.length_drop]
  · intro i hi
    show ((l.drop ((page - 1) * ps)).take ps).get? i = l.get? ((page - 1) * ps + i)
    rw [List.get?_take hi, List.get?_drop]
  · intro hout
    show (l.drop ((page - 1) * ps)).take ps = []
    rw [List.drop_eq_nil_of_le hout, List.take_nil]

/-- C4 witness: 15 orders with page 2 and the default page size 10 give a
5-element slice and 2 total pages. -/
theorem claim_C4_witness :
    (paginate (List.replicate 15 w1Order) 2 10).1.length =
      min 10 ((List.replicate 15 w1Order).length - (2 - 1) * 10) ∧
    (paginate (List.replicate 15 w1Order) 2 10).2 =
      { page := 2, page_size := 10,
        total_items := (List.replicate 15 w1Order).length,
        total_pages := ((List.replicate 15 w1Order).length + 10 - 1) / 10 } := by
  have h := claim_C4_paginate (List.replicate 15 w1Order) 2 10 (by decide) (by decide)
  exact ⟨h.2.2.2.2.1, h.1⟩

/-- C5 counterexample: a payload whose price coerces to the negative float -1
deserializes successfully — the code never checks the sign — whereas the claim
requires a ValidationError for a negative coerced price. -/
theorem claim_C5_counterexample :
    Item.deserialize emptyItem c5Data =
      .ok { id := none, order_id := .null, name := .str "widget",
            price := -1, quantity := 1 } ∧
    (-1 : Rat) < 0 :=
  ⟨rfl, by norm_num⟩

/-- C5 (amended): with `name` present, Item deserialization fails with
`ValidationError "missing price"` when `price` is absent, with
`ValidationError "incorrect data type"` when `float()` raises `TypeError`,
and lets the `ValueError` of a non-numeric string escape uncaught; when both
coercions succeed it accepts whatever float and int result — negative values
included — and the same rule holds for `quantity` under `int()`. -/
theorem claim_C5_item_price_rules (self : Item) (d : ItemData) (nm : PyVal)
    (hn : d.name = some nm) :
    (d.price = none →
       Item.deserialize self d = .error (.validation "Invalid Item: missing price")) ∧
    (∀ pv, d.price = some pv → pyFloat pv = .error .typeError →
       Item.deserialize self d = .error (.validation "Invalid Item: incorrect data type")) ∧
    (∀ pv, d.price = some pv → pyFloat pv = .error .valueError →
       Item.deserialize self d = .error .uncaughtValueError) ∧
    (∀ pv p, d.price = some pv → pyFloat pv = .ok p → d.quantity = none →
       Item.deserialize self d = .error (.validation "Invalid Item: missing quantity")) ∧
    (∀ pv p qv, d.price = some pv → pyFloat pv = .ok p → d.quantity = some qv →
       pyInt qv = .error .typeError →
       Item.deserialize self d = .error (.validation "Invalid Item: incorrect data type")) ∧
    (∀ pv p qv, d.price = some pv → pyFloat pv = .ok p → d.quantity = some qv →
       pyInt qv = .error .valueError →
       Item.deserialize self d = .error .uncaughtValueError) ∧
    (∀ pv p qv q, d.price = some pv → pyFloat pv = .ok p → d.quantity = some qv →
       pyInt qv = .ok q →
       Item.deserialize self d =
         .ok { self with
               name := nm, price := p, quantity := q,
               order_id := d.order_id.getD .null }) := by
  refine ⟨?_, ?_, ?_, ?_, ?_, ?_, ?_⟩
  · intro hp
    simp [Item.deserialize, hn, hp]
  · intro pv hp hf
    simp [Item.deserialize, hn, hp, hf]
  · intro pv hp hf
    simp [Item.deserialize, hn, hp, hf]
  · intro pv p hp hf hq
    simp [Item.deserialize, hn, hp, hf, hq]
  · intro pv p qv hp hf hq hi
    simp [Item.deserialize, hn, hp, hf, hq, hi]
  · intro pv p qv hp hf hq hi
    simp [Item.deserialize, hn, hp, hf, hq, hi]
  · intro pv p qv q hp hf hq hi
    simp [Item.deserialize, hn, hp, hf, hq, hi]

/-- C5 witness: on a concrete payload with a null price, deserialization
fails with the incorrect-data-type validation error. -/
theorem claim_C5_witness :
    Item.deserialize emptyItem
      { name := some (.str "x"), price := some .null, quantity := some (.int 1) } =
      .error (.validation "Invalid Item: incorrect data type") :=
  (claim_C5_item_price_rules emptyItem
      { name := some (.str "x"), price := some .null, quantity := some (.int 1) }
      (.str "x") rfl).2.1 .null rfl rfl

/-- C6 counterexample: a payload with `customer_name` equal to the empty
string deserializes successfully — the code assigns the raw value without a
non-empty check — whereas the claim requires a ValidationError. -/
theorem claim_C6_counterexample :
    Order.deserialize emptyOrder 0 { customer_name := some (.str "") } =
      .ok { id := none, customer_name := .str "", status := .PENDING,
            created_at := 0, updated_at := 0, items := [] } :=
  rfl

/-- C6 (amended): Order deserialization fails with the ValidationError naming
the missing `customer_name` field exactly when the field is absent; an
empty-string `customer_name` (the only other case the claim covers) is
accepted unchanged. -/
theorem claim_C6_customer_name_rules :
    (∀ (self : Order) (now : Nat) (data : OrderData), data.customer_name = none →
       Order.deserialize self now data =
         .error (.validation "Invalid Order: missing customer_name")) ∧
    (∀ (self : Order) (now : Nat),
       Order.deserialize self now { customer_name := some (.str "") } =
         .ok { self with
               customer_name := .str "", status := .PENDING,
               created_at := now }) := by
  constructor
  · intro self now data h
    simp [Order.deserialize, h]
  · intro self now
    have h : Order.deserialize self now { customer_name := some (.str "") } =
        .ok { self with
              customer_name := .str "", status := .PENDING,
              created_at := now, items := self.items ++ [] } := rfl
    rw [h, List.append_nil]

/-- C6 witness: the absence failure and the empty-string acceptance at a
concrete order and payload. -/
theorem claim_C6_witness :
    Order.deserialize emptyOrder 5 { status := some (.str "CREATED") } =
      .error (.validation "Invalid Order: missing customer_name") ∧
    Order.deserialize w2Order 5 { customer_name := some (.str "") } =
      .ok { w2Order with
            customer_name := .str "", status := .PENDING,
            created_at := 5 } :=
  ⟨claim_C6_customer_name_rules.1 emptyOrder 5 { status := some (.str "CREATED") } rfl,
   claim_C6_customer_name_rules.2 w2Order 5⟩

/-! ### Round-trip lemmas -/

theorem ofValue?_strUpper_value (s : OrderStatus) :
    OrderStatus.ofValue? (strUpper s.value) = some s := by
  cases s <;> rfl

theorem deserializeItemList_serialize (l : List Item) :
    deserializeItemList (l.map Item.serialize) =
      .ok (l.map fun i => { i with id := none }) := by
  induction l with
  | nil => rfl
  | cons i rest ih =>
    simp [deserializeItemList, Item.serialize, Item.deserialize, pyFloat, pyInt,
      emptyItem, ih]

/-- C7 counterexample: for an order that has a persisted id, deserializing its
serialization into a fresh order yields an order whose `id` is `none`; and
deserializing it into the order itself appends copies of its items. Under
either reading the round trip is not equality on all non-timestamp fields. -/
theorem claim_C7_counterexample :
    (Order.deserialize emptyOrder 0 (Order.serialize c7Order) = .ok c7Result ∧
     ¬ eqExceptTimestamps c7Result c7Order) ∧
    (Order.deserialize c7bOrder 0 (Order.serialize c7bOrder) =
       .ok { c7bOrder with items := [c7bItem, { c7bItem with id := none }] } ∧
     [c7bItem, { c7bItem with id := none }] ≠ c7bOrder.items) := by
  refine ⟨⟨rfl, ?_⟩, rfl, by decide⟩
  intro h
  exact Option.noConfusion (h.1.symm.trans rfl)

/-- C7 (amended): deserializing the serialization of any Order into a fresh
Order reproduces `customer_name`, `status`, `created_at` and, in order, every
item's `name`, `price`, `quantity` and `order_id`; the Order's `id` and the
items' `id`s are reset to none and `updated_at` is regenerated. -/
theorem claim_C7_roundtrip (now : Nat) (o : Order) :
    Order.deserialize emptyOrder now (Order.serialize o) =
      .ok { id := none, customer_name := o.customer_name, status := o.status,
            created_at := o.created_at, updated_at := 0,
            items := o.items.map fun i => { i with id := none } } := by
  simp [Order.deserialize, Order.serialize, ofValue?_strUpper_value,
    fromIsoformat, deserializeItemList_serialize, emptyOrder]

/-- C8 counterexample: deleting item 7 through order 1, while item 7 belongs
to order 2, answers 204 and removes the item — not the 404-and-no-deletion
the claim requires. -/
theorem claim_C8_counterexample :
    deleteItemRoute c8Db 1 7 =
      ([c8Order1, { c8Order2 with items := [] }], .noContent) ∧
    findItem c8Db 7 = some c8Item ∧
    c8Item.order_id ≠ .int 1 :=
  ⟨rfl, rfl, by decide⟩

/-- C8 (amended): the delete-item route answers 404 only when the order named
in the URL does not exist; when that order exists it answers 204 and deletes
the named item whenever the item exists anywhere — even under a different
order — leaving the store unchanged only when the item does not exist. -/
theorem claim_C8_delete_item_ownership :
    (∀ (db : List Order) (oid iid : Nat), findOrder db oid = none →
       deleteItemRoute db oid iid = (db, .notFound)) ∧
    (∀ (db : List Order) (oid iid : Nat) (o : Order), findOrder db oid = some o →
       (deleteItemRoute db oid iid).2 = .noContent ∧
       (deleteItemRoute db oid iid).1 =
         (match findItem db iid with
          | some _ => removeItem db iid
          | none => db)) := by
  constructor
  · intro db oid iid h
    simp [deleteItemRoute, h]
  · intro db oid iid o h
    cases hfi : findItem db iid <;> simp [deleteItemRoute, h, hfi]

/-- C8 witness: the amended behavior at the concrete two-order store. -/
theorem claim_C8_witness :
    (deleteItemRoute c8Db 1 7).2 = .noContent ∧
    (deleteItemRoute c8Db 1 7).1 =
      (match findItem c8Db 7 with
       | some _ => removeItem c8Db 7
       | none => c8Db) :=
  claim_C8_delete_item_ownership.2 c8Db 1 7 c8Order1 (by decide)

/-- C10: whenever Order deserialization succeeds, the items of the result are
exactly the pre-existing items followed by the items deserialized from the
payload's `items` list (default empty) — the collection is appended to, never
replaced, so an update through deserialization removes no item. -/
theorem claim_C10_deserialize_appends_items
    (self : Order) (now : Nat) (data : OrderData) (o' : Order)
    (h : Order.deserialize self now data = .ok o') :
    exceptIsOk (deserializeItemList (data.items.getD [])) = true ∧
    (∀ ns, deserializeItemList (data.items.getD []) = .ok ns →
       o'.items = self.items ++ ns) := by
  unfold Order.deserialize at h
  cases hcn : data.customer_name with
  | none => simp [hcn] at h
  | some cn =>
    cases hss : data.status.getD (.str "PENDING")
    case null => simp [hcn, hss] at h
    case bool b => simp [hcn, hss] at h
    case int n => simp [hcn, hss] at h
    case num q => simp [hcn, hss] at h
    case isoStr t => simp [hcn, hss] at h
    case str s =>
      cases hov : OrderStatus.ofValue? (strUpper s) with
      | none => simp [hcn, hss, hov] at h
      | some st =>
        cases hdl : deserializeItemList (data.items.getD []) with
        | error e =>
          cases hca : data.created_at with
          | none => simp [hcn, hss, hov, hca, hdl] at h
          | some cv =>
            cases hfi : fromIsoformat cv with
            | error e2 => simp [hcn, hss, hov, hca, hfi] at h
            | ok t => simp [hcn, hss, hov, hca, hfi, hdl] at h
        | ok ns =>
          refine ⟨rfl, ?_⟩
          intro ns' hns
          injection hns with h3
          subst h3
          cases hca : data.created_at with
          | none =>
            simp [hcn, hss, hov, hca] at h
            rw [hdl] at h
            simp only [Except.ok.injEq] at h
            rw [← h]
          | some cv =>
            cases hfi : fromIsoformat cv with
            | error e2 => simp [hcn, hss, hov, hca, hfi] at h
            | ok t =>
              simp [hcn, hss, hov, hca, hfi] at h
              rw [hdl] at h
              simp only [Except.ok.injEq] at h
              rw [← h]

/-- C10 witness: deserializing a payload with one new item into an order that
already holds one item yields both items in order. -/
theorem claim_C10_witness :
    Order.deserialize c10Self 2 c10Data =
      .ok { c10Self with
            customer_name := .str "bob", status := .PENDING, created_at := 2,
            items := c10Self.items ++
              [{ id := none, order_id := .null, name := .str "new",
                 price := 3, quantity := 4 }] } ∧
    ({ c10Self with
       customer_name := .str "bob", status := .PENDING, created_at := 2,
       items := c10Self.items ++
         [{ id := none, order_id := .null, name := .str "new",
            price := 3, quantity := 4 }] } : Order).items =
      c10Self.items ++
        [{ id := none, order_id := .null, name := .str "new",
           price := 3, quantity := 4 }] :=
  ⟨rfl,
   (claim_C10_deserialize_appends_items c10Self 2 c10Data _ rfl).2 _ rfl⟩

end OrdersSvc
